import Mathlib

/-!
Verification of the version-resolution / packaging helper script (setup.py).

The script is embedded shallowly:

* a text file is the list of lines that Python's file iteration yields
  (each line keeps its trailing newline character); `pyLines` converts a
  whole file content into that list;
* every subprocess interaction of `get_version_from_git` is described by a
  `GitEnv` record holding the observable outcome of each call (whether
  `Popen` raised `OSError`, the exit status, the captured stdout);
* fallible Python code is translated to `Except PyErr`, where an
  `Except.error` is an exception that escapes the translated fragment.
-/

namespace TinySetup

/-- Exceptions that the translated fragments can raise or observe. -/
inductive PyErr where
  | ioError
  | runtimeError
  | valueError
  | indexError
  | osErrorNoEnt
  | osErrorOther
  deriving DecidableEq

/-- Characters treated as whitespace by Python's str.strip family. -/
def pySpace (c : Char) : Bool :=
  c == ' ' || c == '\t' || c == '\n' || c == '\r' || c == '\x0b' || c == '\x0c'

/-- Python str.rstrip with no argument: drop trailing whitespace. -/
def pyRstrip (s : String) : String :=
  String.mk (s.data.reverse.dropWhile pySpace).reverse

/-- Python str.strip with no argument: drop whitespace from both ends
(trailing first, then leading; the order does not matter). -/
def pyStrip (s : String) : String :=
  String.mk (((s.data.reverse.dropWhile pySpace).reverse).dropWhile pySpace)

/-- Python str.strip with a single-character argument: drop that character
from both ends of the string. -/
def stripChar (c : Char) (s : String) : String :=
  String.mk ((((s.data.reverse.dropWhile (fun d => d == c)).reverse).dropWhile (fun d => d == c)))

/-- Python str.rstrip with a single-character argument. -/
def rstripChar (c : Char) (s : String) : String :=
  String.mk (s.data.reverse.dropWhile (fun d => d == c)).reverse

/-- Helper for `pyLines`: the first argument accumulates the current line in
reverse order. -/
def pyLinesAux : List Char → List Char → List (List Char)
  | acc, [] => if acc.isEmpty then [] else [acc.reverse]
  | acc, c :: cs =>
    if c == '\n' then (c :: acc).reverse :: pyLinesAux [] cs
    else pyLinesAux (c :: acc) cs

/-- The list of lines Python file iteration yields for a given file content:
each newline ends a line and is kept; a final fragment without a newline is a
line of its own. -/
def pyLines (s : String) : List String :=
  (pyLinesAux [] s.data).map String.mk

/-- Python's str.startswith for the one-character prefix used by the script:
whether the first character of the string is the hash character. -/
def startsWithHash (s : String) : Bool :=
  match s.data with
  | [] => false
  | c :: _ => c == '#'

/-- Models the module-level loop over the saved version file (setup.py lines
93-102): each line is stripped; a line whose stripped form starts with the
hash character is skipped; the first other line becomes the version; if the
loop finishes without a break, the for-else raises RuntimeError, modelled as
`none`. -/
def readMarkerVersion : List String → Option String
  | [] => none
  | l :: ls =>
    let s := pyStrip l
    if startsWithHash s then readMarkerVersion ls
    else some s

/-- Modelled from the spec (section 6, External Interfaces): comment lines
begin with the hash character and are ignored; the first non-comment,
non-blank line is the marker value.  Used only to compare the spec's reading
rule with the code's `readMarkerVersion`. -/
def specMarkerValue (lines : List String) : Option String :=
  (lines.map pyStrip).find? (fun s => !(startsWithHash s) && !(s.isEmpty))

/-- Observable outcomes of the four subprocess interactions performed by
`get_version_from_git`:  the rev-parse top-level query, the two describe
queries (first-parent mode and all-ancestry mode) and the dirty check.  A
`...Raises` field set to true means `Popen` raised `OSError` for that call. -/
structure GitEnv where
  toplevelRaises : Bool
  toplevelExit : Nat
  toplevelSame : Bool
  describeFPRaises : Bool
  describeFPExit : Nat
  describeFPOut : String
  describeAllRaises : Bool
  describeAllExit : Nat
  describeAllOut : String
  diffRaises : Bool
  diffExit : Nat

/-- Outcome of the describe loop (setup.py lines 58-68): the first-parent
mode is tried first; on nonzero exit status the all-ancestry mode is tried;
an `OSError` from `Popen`, or nonzero exit of both attempts, aborts version
extraction (`none`, the bare `return`). -/
def describeOutput (env : GitEnv) : Option String :=
  if env.describeFPRaises then none
  else if env.describeFPExit = 0 then some env.describeFPOut
  else if env.describeAllRaises then none
  else if env.describeAllExit = 0 then some env.describeAllOut
  else none

/-- Split a string at the last occurrence of a separator character; `none`
when the separator does not occur.  One step of Python's str.rsplit. -/
def rsplitLast (sep : Char) (s : String) : Option (String × String) :=
  let rev := s.data.reverse
  let tl := rev.takeWhile (fun d => d != sep)
  match rev.dropWhile (fun d => d != sep) with
  | [] => none
  | _ :: front => some (String.mk front.reverse, String.mk tl.reverse)

/-- Models the unpacking `release, dev, git = description.rsplit(sep, 2)` at
setup.py line 71; `none` when the unpacking would raise ValueError because
the description holds fewer than two separator characters. -/
def parseDescription (s : String) : Option (String × String × String) :=
  match rsplitLast '-' s with
  | none => none
  | some (rest, gitField) =>
    match rsplitLast '-' rest with
    | none => none
    | some (release, devField) => some (release, devField, gitField)

/-- setup.py lines 41-90, `get_version_from_git`.  `Except.ok none` models
the bare `return` statements (version could not be extracted); an
`Except.error` is the uncaught ValueError from unpacking the rsplit result.
The description string is first stripped of the character v on both ends and
of trailing newlines, exactly as on line 69. -/
def get_version_from_git (env : GitEnv) : Except PyErr (Option String) :=
  if env.toplevelRaises then Except.ok none
  else if env.toplevelExit ≠ 0 then Except.ok none
  else if !env.toplevelSame then Except.ok none
  else
    match describeOutput env with
    | none => Except.ok none
    | some raw =>
      let description := rstripChar '\n' (stripChar 'v' raw)
      match parseDescription description with
      | none => Except.error PyErr.valueError
      | some (release, devField, gitField) =>
        let version1 : List String :=
          [release] ++ (if devField ≠ "0" then [".dev" ++ devField] else [])
        let labels : List String :=
          (if devField ≠ "0" then [gitField] else []) ++
          (if env.diffRaises then ["confused"]
           else if env.diffExit = 1 then ["dirty"] else [])
        let version2 : List String :=
          version1 ++ (if labels = [] then [] else ["+", String.intercalate "." labels])
        Except.ok (some (String.join version2))

/-- setup.py lines 93-107: read the saved version file and, when it holds
the dynamic sentinel, fall back to git; a falsy git result (`none` or the
empty string) becomes the string unknown.  The file argument is `none` when
the saved version file is absent, in which case `open` raises IOError. -/
def resolveVersion (file : Option (List String)) (env : GitEnv) : Except PyErr String :=
  match file with
  | none => Except.error PyErr.ioError
  | some lines =>
    match readMarkerVersion lines with
    | none => Except.error PyErr.runtimeError
    | some v =>
      if v = "__use_git__" then
        match get_version_from_git env with
        | Except.error e => Except.error e
        | Except.ok none => Except.ok "unknown"
        | Except.ok (some s) => Except.ok (if s = "" then "unknown" else s)
      else Except.ok v

/-- The loop of `long_description` (setup.py lines 115-124) over the lines
of the readme.  `skip` starts true; `text` is the accumulator; the result is
`none` when the subscript on the empty accumulator raises IndexError, which
the surrounding bare `except` turns into the empty string. -/
def ldLoop (skip : Bool) (text : List String) : List String → Option (List String)
  | [] => some text
  | line :: rest =>
    if line = "\n" then
      if skip then ldLoop false text rest
      else
        match text.getLast? with
        | none => none
        | some last =>
          if last = "\n" then some text.dropLast
          else ldLoop skip (text ++ [line]) rest
    else
      if skip then ldLoop skip text rest
      else ldLoop skip (text ++ [line]) rest

/-- `long_description` (setup.py lines 110-128).  The argument is `none`
when the readme cannot be opened; any exception inside the try block yields
the empty string, while an empty accumulator at the final subscript, which
sits outside the try block, raises IndexError. -/
def long_description (file : Option (List String)) : Except PyErr String :=
  match file with
  | none => Except.ok ""
  | some lines =>
    match ldLoop true [] lines with
    | none => Except.ok ""
    | some text =>
      match text.getLast? with
      | none => Except.error PyErr.indexError
      | some last => Except.ok (String.join text.dropLast ++ pyRstrip last)

/-- Model of `os.remove` on the snapshot's marker file: raises the
file-does-not-exist `OSError` when the file is absent; `removeRaises`
injects any other `OSError` (for example a permission failure). -/
def osRemove (removeRaises : Bool) (fileContent : Option String) : Except PyErr (Option String) :=
  match fileContent with
  | none => Except.error PyErr.osErrorNoEnt
  | some _ =>
    if removeRaises then Except.error PyErr.osErrorOther
    else Except.ok none

/-- Whether an exception is an `OSError`, the class caught by the
`except OSError: pass` on setup.py lines 149-150. -/
def isOSError : PyErr → Bool
  | PyErr.osErrorNoEnt => true
  | PyErr.osErrorOther => true
  | _ => false

/-- The content the sdist hook writes into the snapshot's version file
(setup.py lines 151-153). -/
def markerFileContent (v : String) : String :=
  "# This file has been generated by setup.py.\n" ++ v ++ "\n"

/-- `our_sdist.make_release_tree` restricted to its effect on the snapshot's
marker file (setup.py lines 141-153): try to delete the existing file,
catching `OSError`, then write the fresh marker holding the resolved version
`v`.  The result is the final marker file content, or an exception that
escaped the method. -/
def make_release_tree (removeRaises : Bool) (marker : Option String) (v : String) :
    Except PyErr (Option String) :=
  match osRemove removeRaises marker with
  | Except.ok _ => Except.ok (some (markerFileContent v))
  | Except.error e =>
    if isOSError e then Except.ok (some (markerFileContent v))
    else Except.error e

/-! ### Claims C3 and C4: the description extractor -/

/-- Claim C3 (code bug): the specification states that on a readme content of
the lines shown, `long_description` returns the title and summary joined by a
newline.  The code instead returns the empty string: the skip flag is cleared
at the first leading blank line, so the second blank line evaluates the
subscript on the still-empty accumulator, raising IndexError, which the bare
except converts to the empty string. -/
theorem c3_long_description_spec_example_bug :
    long_description (some (pyLines "\n\nTitle\nSummary\n\nMore text\n")) = Except.ok "" ∧
    (Except.ok "" : Except PyErr String) ≠ Except.ok "Title\nSummary" := by
  refine ⟨rfl, fun h => ?_⟩
  exact absurd (Except.ok.inj h) (by decide)

/-- Claim C4 (code bug): the specification states `long_description` never
raises.  The code does return the empty string when the file cannot be
opened, but the final subscript sits outside the try block, so an empty file
or a file holding a single blank line raises IndexError. -/
theorem c4_long_description_raises_bug :
    long_description none = Except.ok "" ∧
    long_description (some (pyLines "")) = Except.error PyErr.indexError ∧
    long_description (some (pyLines "\n")) = Except.error PyErr.indexError :=
  ⟨rfl, rfl, rfl⟩

/-! ### Claim C5: marker deletion failure handling in the sdist hook -/

/-- Claim C5 counterexample: a deletion failure that does not mean "file does
not exist" (the injected `osErrorOther`, with the marker file present) does
not propagate: the hook still returns successfully and writes the fresh
marker. -/
theorem c5_deletion_counterexample :
    osRemove true (some "1.0\n") = Except.error PyErr.osErrorOther ∧
    make_release_tree true (some "1.0\n") "2.0" =
      Except.ok (some (markerFileContent "2.0")) :=
  ⟨rfl, rfl⟩

/-- Claim C5 amended: every `OSError` raised by the deletion — absence of the
file as well as any other failure — is swallowed by the hook, which then
writes the fresh marker; no deletion failure propagates. -/
theorem c5_deletion_swallowed_amended (removeRaises : Bool) (marker : Option String)
    (v : String) :
    make_release_tree removeRaises marker v = Except.ok (some (markerFileContent v)) := by
  cases marker <;> cases removeRaises <;> rfl

/-! ### Claim C7: a literal marker is returned verbatim -/

/-- Claim C7: when the saved version file yields a literal version (not the
dynamic sentinel), the resolved version is exactly that literal and does not
depend on the git environment at all. -/
theorem c7_literal_marker_verbatim (lines : List String) (x : String) (env env2 : GitEnv)
    (h1 : readMarkerVersion lines = some x) (h2 : x ≠ "__use_git__") :
    resolveVersion (some lines) env = Except.ok x ∧
    resolveVersion (some lines) env = resolveVersion (some lines) env2 := by
  simp only [resolveVersion]
  rw [h1]
  simp [h2]

/-- Witness for claim C7: the literal marker 1.0 resolves to 1.0 under two
different git environments. -/
theorem c7_witness :
    resolveVersion (some ["1.0\n"])
        ⟨false, 0, true, false, 0, "v9.9-3-gzz\n", false, 0, "", false, 1⟩ = Except.ok "1.0" ∧
    resolveVersion (some ["1.0\n"])
        ⟨false, 0, true, false, 0, "v9.9-3-gzz\n", false, 0, "", false, 1⟩ =
      resolveVersion (some ["1.0\n"]) ⟨true, 1, false, true, 1, "", true, 1, "", true, 0⟩ :=
  c7_literal_marker_verbatim ["1.0\n"] "1.0" _ _ (by decide) (by decide)

/-! ### Claim C6: top-level query failures resolve to unknown -/

/-- Claim C6: with the dynamic sentinel in the marker file, if the rev-parse
call raises `OSError`, or exits nonzero, or reports a top-level directory
different from the packaging root, the resolved version is the string
unknown and no exception is raised. -/
theorem c6_toplevel_failure_unknown (lines : List String) (env : GitEnv)
    (hm : readMarkerVersion lines = some "__use_git__")
    (h : env.toplevelRaises = true ∨ env.toplevelExit ≠ 0 ∨ env.toplevelSame = false) :
    resolveVersion (some lines) env = Except.ok "unknown" := by
  have hg : get_version_from_git env = Except.ok none := by
    unfold get_version_from_git
    by_cases hr : env.toplevelRaises = true
    · simp [hr]
    · rcases h with h | h | h
      · exact absurd h hr
      · simp [hr, h]
      · by_cases he : env.toplevelExit = 0
        · simp [hr, he, h]
        · simp [hr, he]
  simp only [resolveVersion]
  rw [hm]
  simp [hg]

/-- Witness for claim C6: a nested checkout (top-level directory not the
packaging root) resolves to unknown. -/
theorem c6_witness :
    resolveVersion (some ["__use_git__\n"])
        ⟨false, 0, false, false, 0, "v1.0-3-gzz\n", false, 0, "", false, 0⟩ =
      Except.ok "unknown" :=
  c6_toplevel_failure_unknown ["__use_git__\n"] _ (by decide) (Or.inr (Or.inr rfl))

/-! ### Claim C9: describe is retried with full ancestry -/

/-- Claim C9: with the dynamic sentinel and a successful top-level check, the
first-parent describe attempt is used when it exits zero; when it exits
nonzero the all-ancestry retry's output is used; when both exit nonzero the
resolver returns unknown. -/
theorem c9_describe_retry (lines : List String) (env : GitEnv)
    (hm : readMarkerVersion lines = some "__use_git__")
    (h1 : env.toplevelRaises = false) (h2 : env.toplevelExit = 0)
    (h3 : env.toplevelSame = true)
    (h4 : env.describeFPRaises = false) (h5 : env.describeAllRaises = false) :
    (env.describeFPExit = 0 → describeOutput env = some env.describeFPOut) ∧
    (env.describeFPExit ≠ 0 → env.describeAllExit = 0 →
      describeOutput env = some env.describeAllOut) ∧
    (env.describeFPExit ≠ 0 → env.describeAllExit ≠ 0 →
      describeOutput env = none ∧ resolveVersion (some lines) env = Except.ok "unknown") := by
  refine ⟨?_, ?_, ?_⟩
  · intro hfp
    simp [describeOutput, h4, hfp]
  · intro hfp hall
    simp [describeOutput, h4, h5, hfp, hall]
  · intro hfp hall
    have hd : describeOutput env = none := by simp [describeOutput, h4, h5, hfp, hall]
    have hg : get_version_from_git env = Except.ok none := by
      unfold get_version_from_git
      rw [hd]
      simp [h1, h2, h3]
    refine ⟨hd, ?_⟩
    simp only [resolveVersion]
    rw [hm]
    simp [hg]

/-- Witness for claim C9: both describe attempts exiting nonzero yields the
resolved version unknown. -/
theorem c9_witness :
    describeOutput ⟨false, 0, true, false, 2, "a", false, 3, "b", false, 0⟩ = none ∧
    resolveVersion (some ["__use_git__\n"])
        ⟨false, 0, true, false, 2, "a", false, 3, "b", false, 0⟩ = Except.ok "unknown" :=
  (c9_describe_retry ["__use_git__\n"] _ (by decide) rfl rfl rfl rfl rfl).2.2
    (by decide) (by decide)
/-! ### String helper lemmas -/

lemma string_data_inj {a b : String} (h : a.data = b.data) : a = b :=
  String.ext h

lemma pySpace_newline : pySpace '\n' = true := rfl

/-- Stripping is unaffected by a trailing newline. -/
lemma pyStrip_append_newline (v : String) : pyStrip (v ++ "\n") = pyStrip v := by
  unfold pyStrip
  have h1 : (v ++ "\n").data = v.data ++ ['\n'] := by
    rw [String.data_append]
  rw [h1, List.reverse_append]
  simp only [List.reverse_cons, List.reverse_nil, List.nil_append, List.singleton_append]
  rw [List.dropWhile_cons_of_pos pySpace_newline]

lemma pyLinesAux_nil : pyLinesAux [] [] = [] := rfl

/-- Splitting a char sequence at a newline: the prefix up to and including
the newline becomes one line, the rest is processed afresh. -/
lemma pyLinesAux_split (acc xs rest : List Char) (h : ∀ c ∈ xs, c ≠ '\n') :
    pyLinesAux acc (xs ++ '\n' :: rest) =
      (acc.reverse ++ xs ++ ['\n']) :: pyLinesAux [] rest := by
  induction xs generalizing acc with
  | nil =>
    simp [pyLinesAux]
  | cons x xs ih =>
    have hx : x ≠ '\n' := h x (by simp)
    simp only [List.cons_append, pyLinesAux]
    rw [if_neg (by simp [hx])]
    simp only [List.append_eq]
    rw [ih (x :: acc) (fun c hc => h c (by simp [hc]))]
    simp [List.append_assoc]

/-- The marker file content the sdist hook writes splits into exactly two
lines: the generated-file comment and the version line. -/
lemma pyLines_markerFileContent (v : String) (hnl : ∀ c ∈ v.data, c ≠ '\n') :
    pyLines (markerFileContent v) =
      ["# This file has been generated by setup.py.\n", v ++ "\n"] := by
  unfold pyLines markerFileContent
  have hdata : ("# This file has been generated by setup.py.\n" ++ v ++ "\n").data =
      "# This file has been generated by setup.py.".data ++ '\n' :: (v.data ++ '\n' :: []) := by
    rw [String.data_append, String.data_append]
    rw [show ("# This file has been generated by setup.py.\n").data =
      "# This file has been generated by setup.py.".data ++ ['\n'] from by decide]
    simp
  rw [hdata]
  rw [pyLinesAux_split [] _ _ (by decide)]
  rw [pyLinesAux_split [] v.data [] hnl]
  rw [pyLinesAux_nil]
  simp only [List.map, List.reverse_nil, List.nil_append]
  have e2 : String.mk (v.data ++ ['\n']) = v ++ "\n" := by
    apply string_data_inj
    rw [String.data_append]
  rw [e2]
  rw [show String.mk ("# This file has been generated by setup.py.".data ++ ['\n']) =
    "# This file has been generated by setup.py.\n" from by decide]

/-- Reading back the marker file the hook writes yields the written version,
provided the version has no newline, carries no surrounding whitespace, and
does not start with the hash character. -/
lemma readMarker_roundtrip (v : String) (hnl : ∀ c ∈ v.data, c ≠ '\n')
    (hstrip : pyStrip v = v) (hhash : startsWithHash v = false) :
    readMarkerVersion (pyLines (markerFileContent v)) = some v := by
  rw [pyLines_markerFileContent v hnl]
  have h2 : pyStrip (v ++ "\n") = v := by rw [pyStrip_append_newline, hstrip]
  simp only [readMarkerVersion]
  rw [if_pos (by decide :
    startsWithHash (pyStrip "# This file has been generated by setup.py.\n") = true)]
  simp only [readMarkerVersion, h2]
  rw [if_neg (by rw [hhash]; exact Bool.false_ne_true)]

/-! ### Claim C2: reading the version marker file -/

lemma readMarker_none_iff (lines : List String) :
    readMarkerVersion lines = none ↔ ∀ l ∈ lines, startsWithHash (pyStrip l) = true := by
  induction lines with
  | nil => simp [readMarkerVersion]
  | cons l ls ih =>
    simp only [readMarkerVersion]
    by_cases h : startsWithHash (pyStrip l) = true
    · simp [h, ih]
    · simp [h]

lemma readMarker_first (pre : List String) (l : String) (post : List String)
    (hpre : ∀ b ∈ pre, startsWithHash (pyStrip b) = true)
    (hl : startsWithHash (pyStrip l) = false) :
    readMarkerVersion (pre ++ l :: post) = some (pyStrip l) := by
  induction pre with
  | nil =>
    simp only [List.nil_append, readMarkerVersion]
    rw [if_neg (by rw [hl]; exact Bool.false_ne_true)]
  | cons b bs ih =>
    have hb : startsWithHash (pyStrip b) = true := hpre b (by simp)
    simp only [List.cons_append, readMarkerVersion]
    rw [if_pos hb]
    exact ih (fun x hx => hpre x (by simp [hx]))

/-- Claim C2 counterexample: on the file content of a blank line followed by
the line X, the spec's reading rule picks X, but the code takes the stripped
blank line (the empty string) as the marker value; and a file of only blank
lines does not fail either, it also yields the empty marker value. -/
theorem c2_marker_read_counterexample :
    specMarkerValue (pyLines "\nX\n") = some "X" ∧
    readMarkerVersion (pyLines "\nX\n") = some "" ∧
    (some "X" : Option String) ≠ some "" ∧
    readMarkerVersion (pyLines "\n\n") = some "" := by decide

/-- Claim C2 amended: the marker-reading step takes the first line whose
whitespace-stripped form does not begin with the hash character — a blank
line included, yielding the empty marker value — and raises the
configuration RuntimeError exactly when every line is a comment (hence for
the empty file); an absent file fails fatally with the IOError from open. -/
theorem c2_marker_read_amended (lines : List String) :
    (readMarkerVersion lines = none ↔ ∀ l ∈ lines, startsWithHash (pyStrip l) = true) ∧
    (∀ pre l post, lines = pre ++ l :: post →
      (∀ b ∈ pre, startsWithHash (pyStrip b) = true) →
      startsWithHash (pyStrip l) = false →
      readMarkerVersion lines = some (pyStrip l)) ∧
    (∀ env : GitEnv, resolveVersion none env = Except.error PyErr.ioError) := by
  refine ⟨readMarker_none_iff lines, ?_, fun _ => rfl⟩
  rintro pre l post rfl hpre hl
  exact readMarker_first pre l post hpre hl

/-- Witness for the amended claim C2: a comment line followed by a version
line surrounded by whitespace yields the stripped version line. -/
theorem c2_witness :
    readMarkerVersion (pyLines "#c\n 1.1 \n") = some (pyStrip " 1.1 \n") :=
  (c2_marker_read_amended (pyLines "#c\n 1.1 \n")).2.1 ["#c\n"] " 1.1 \n" []
    (by decide) (by decide) (by decide)

/-! ### Claims C8 and C10: the sdist hook pins a readable version -/

/-- Claim C10 counterexample: the version string with a leading space
satisfies every condition of the claim (non-empty, no newline, not only
whitespace, does not begin with the hash character), yet reading the marker
file written for it yields the stripped string, not the original. -/
theorem c10_roundtrip_counterexample :
    (" 1.0" : String) ≠ "" ∧
    (∀ c ∈ (" 1.0" : String).data, c ≠ '\n') ∧
    (¬ ∀ c ∈ (" 1.0" : String).data, pySpace c = true) ∧
    startsWithHash " 1.0" = false ∧
    readMarkerVersion (pyLines (markerFileContent " 1.0")) = some "1.0" ∧
    (some "1.0" : Option String) ≠ some " 1.0" := by decide

/-- Claim C10 amended: for every version string that is non-empty, contains
no newline, equals its own whitespace-strip, and does not begin with the
hash character, reading the marker file the hook writes yields exactly that
string. -/
theorem c10_roundtrip_amended (v : String) (_h0 : v ≠ "")
    (hnl : ∀ c ∈ v.data, c ≠ '\n') (hstrip : pyStrip v = v)
    (hhash : startsWithHash v = false) :
    readMarkerVersion (pyLines (markerFileContent v)) = some v :=
  readMarker_roundtrip v hnl hstrip hhash

/-- Witness for the amended claim C10 at the version 1.0. -/
theorem c10_witness :
    readMarkerVersion (pyLines (markerFileContent "1.0")) = some "1.0" :=
  c10_roundtrip_amended "1.0" (by decide) (by decide) (by decide) (by decide)

/-- Claim C8: whatever the snapshot's previous marker file held (the dynamic
sentinel in particular) and however the deletion behaves, the hook leaves
the marker file holding the generated comment plus the resolved version;
reading it back yields that version, which is not the sentinel; and a second
run on the already-pinned snapshot produces the same content. -/
theorem c8_sdist_pins_version (b1 b2 : Bool) (marker : Option String) (v : String)
    (hnl : ∀ c ∈ v.data, c ≠ '\n') (hstrip : pyStrip v = v)
    (hhash : startsWithHash v = false) (hsent : v ≠ "__use_git__") :
    make_release_tree b1 marker v = Except.ok (some (markerFileContent v)) ∧
    readMarkerVersion (pyLines (markerFileContent v)) = some v ∧
    v ≠ "__use_git__" ∧
    make_release_tree b2 (some (markerFileContent v)) v = make_release_tree b1 marker v := by
  refine ⟨?_, readMarker_roundtrip v hnl hstrip hhash, hsent, ?_⟩
  · cases marker <;> cases b1 <;> rfl
  · cases marker <;> cases b1 <;> cases b2 <;> rfl

/-- Witness for claim C8: a snapshot marker holding the sentinel is replaced
by the pinned version 1.0, idempotently. -/
theorem c8_witness :
    make_release_tree true (some "__use_git__\n") "1.0" =
      Except.ok (some (markerFileContent "1.0")) ∧
    readMarkerVersion (pyLines (markerFileContent "1.0")) = some "1.0" ∧
    ("1.0" : String) ≠ "__use_git__" ∧
    make_release_tree false (some (markerFileContent "1.0")) "1.0" =
      make_release_tree true (some "__use_git__\n") "1.0" :=
  c8_sdist_pins_version true false (some "__use_git__\n") "1.0"
    (by decide) (by decide) (by decide) (by decide)
/-! ### Decimal representation helper -/

lemma toDigitsCore_length_le (b : Nat) :
    ∀ (f n : Nat) (ds : List Char), ds.length ≤ (Nat.toDigitsCore b f n ds).length
  | 0, _, _ => Nat.le_refl _
  | f + 1, n, ds => by
    unfold Nat.toDigitsCore
    by_cases h : n / b = 0
    · simp [h]
    · rw [if_neg h]
      calc ds.length ≤ (Nat.digitChar (n % b) :: ds).length := by simp
        _ ≤ _ := toDigitsCore_length_le b f (n / b) _

lemma toDigitsCore_length_succ (b f n : Nat) (ds : List Char) :
    ds.length + 1 ≤ (Nat.toDigitsCore b (f + 1) n ds).length := by
  unfold Nat.toDigitsCore
  by_cases h : n / b = 0
  · simp [h]
  · rw [if_neg h]
    have h2 := toDigitsCore_length_le b f (n / b) (Nat.digitChar (n % b) :: ds)
    simpa using h2

/-- The decimal rendering of a natural number is the string 0 exactly for
zero. -/
lemma nat_repr_eq_zero_iff (n : Nat) : Nat.repr n = "0" ↔ n = 0 := by
  constructor
  · intro h
    by_contra hn
    have hlist : Nat.toDigits 10 n = ['0'] := by
      have hd := congrArg String.data h
      simpa [Nat.repr, List.asString] using hd
    rcases Nat.lt_or_ge n 10 with hlt | hge
    · have h1 : 1 ≤ n := Nat.pos_of_ne_zero hn
      interval_cases n <;> exact absurd hlist (by decide)
    · have hdiv : n / 10 ≠ 0 := by
        have h10 : 1 ≤ n / 10 := (Nat.one_le_div_iff (by norm_num)).mpr hge
        omega
      have hstep : ∀ (g m : Nat) (ds : List Char), m / 10 ≠ 0 →
          Nat.toDigitsCore 10 (g + 1) m ds =
            Nat.toDigitsCore 10 g (m / 10) (Nat.digitChar (m % 10) :: ds) := by
        intro g m ds hm
        conv_lhs => unfold Nat.toDigitsCore
        rw [if_neg hm]
      obtain ⟨f, rfl⟩ : ∃ f, n = f + 1 := ⟨n - 1, by omega⟩
      have hlen : 2 ≤ (Nat.toDigits 10 (f + 1)).length := by
        unfold Nat.toDigits
        rw [hstep (f + 1) (f + 1) [] hdiv]
        have h2 := toDigitsCore_length_succ 10 f ((f + 1) / 10)
          [Nat.digitChar ((f + 1) % 10)]
        simpa using h2
      rw [hlist] at hlen
      simp at hlen
  · rintro rfl
    decide
lemma string_join_nil : String.join [] = "" := rfl

lemma string_foldl_append (s : String) (l : List String) :
    List.foldl (fun r t => r ++ t) s l = s ++ List.foldl (fun r t => r ++ t) "" l := by
  induction l generalizing s with
  | nil => simp
  | cons b bs ih =>
    simp only [List.foldl]
    rw [ih (s ++ b), ih ("" ++ b), String.empty_append, String.append_assoc]

lemma string_join_cons (a : String) (l : List String) :
    String.join (a :: l) = a ++ String.join l := by
  unfold String.join
  simp only [List.foldl]
  rw [string_foldl_append ("" ++ a) l, String.empty_append]

lemma string_append_ne_empty_left (a b : String) (h : a ≠ "") : a ++ b ≠ "" := by
  intro hab
  apply h
  have hd : a.data ++ b.data = [] := by
    have hd0 := congrArg String.data hab
    rw [String.data_append] at hd0
    exact hd0
  exact string_data_inj (List.append_eq_nil.mp hd).1

/-! ### Claim C1: assembly of the dynamic version string -/

/-- Claim C1: when the sentinel resolution reaches a successful describe
query whose output parses into release, distance (rendered in decimal) and
abbreviated commit id, the resolved version is the release, with the dev
segment appended exactly when the distance is nonzero, and with a plus sign
followed by the dot-joined labels appended exactly when some label was
queued; the commit id is queued exactly when the distance is nonzero, the
dirty label exactly when the dirty check exits with status one, and the
commit id precedes dirty.  (A nonempty release is assumed; git never
produces an empty tag name.) -/
theorem c1_dynamic_version_assembly (lines : List String) (env : GitEnv)
    (raw release gitid : String) (n : Nat)
    (hm : readMarkerVersion lines = some "__use_git__")
    (h1 : env.toplevelRaises = false) (h2 : env.toplevelExit = 0)
    (h3 : env.toplevelSame = true)
    (hd : describeOutput env = some raw)
    (hp : parseDescription (rstripChar '\n' (stripChar 'v' raw)) =
      some (release, Nat.repr n, gitid))
    (hdiff : env.diffRaises = false)
    (hrel : release ≠ "") :
    resolveVersion (some lines) env = Except.ok
      (release ++ (if n ≠ 0 then ".dev" ++ Nat.repr n else "") ++
        (if n ≠ 0 ∨ env.diffExit = 1 then
          "+" ++ String.intercalate "."
            ((if n ≠ 0 then [gitid] else []) ++
              (if env.diffExit = 1 then ["dirty"] else []))
         else "")) := by
  simp only [resolveVersion, hm, get_version_from_git, h1, h2, h3, hd, hp, hdiff,
    if_true, ne_eq, nat_repr_eq_zero_iff, Bool.not_true, Bool.false_eq_true, if_false,
    OfNat.ofNat_ne_zero, not_false_eq_true, ite_true, ite_false, not_true_eq_false]
  have key : ∀ J R : String, J = R → R ≠ "" →
      (Except.ok (if J = "" then "unknown" else J) : Except PyErr String) = Except.ok R := by
    rintro J R rfl hne
    rw [if_neg hne]
  by_cases hn : n = 0
  · by_cases hx : env.diffExit = 1
    · exact key _ _ (by simp [hn, hx, string_join_cons, string_join_nil, String.append_assoc])
        (string_append_ne_empty_left _ _ (string_append_ne_empty_left _ _ hrel))
    · exact key _ _ (by simp [hn, hx, string_join_cons, string_join_nil, String.append_assoc])
        (string_append_ne_empty_left _ _ (string_append_ne_empty_left _ _ hrel))
  · by_cases hx : env.diffExit = 1
    · exact key _ _ (by simp [hn, hx, string_join_cons, string_join_nil, String.append_assoc])
        (string_append_ne_empty_left _ _ (string_append_ne_empty_left _ _ hrel))
    · exact key _ _ (by simp [hn, hx, string_join_cons, string_join_nil, String.append_assoc])
        (string_append_ne_empty_left _ _ (string_append_ne_empty_left _ _ hrel))

/-- Witness for claim C1: three commits past tag v1.0 with a dirty tree
yields 1.0.dev3+gabc123.dirty, the commit id label before the dirty label. -/
theorem c1_witness :
    resolveVersion (some ["__use_git__\n"])
        ⟨false, 0, true, false, 0, "v1.0-3-gabc123\n", false, 0, "", false, 1⟩ =
      Except.ok "1.0.dev3+gabc123.dirty" :=
  Eq.trans
    (c1_dynamic_version_assembly ["__use_git__\n"] _ "v1.0-3-gabc123\n" "1.0" "gabc123" 3
      (by decide) rfl rfl rfl rfl (by decide) rfl (by decide))
    (congrArg Except.ok (by decide))

end TinySetup
